import Mathlib

/-!
Verification of the interruptible long-running operation framework of
videolib-cli, a shallow embedding of `src/cli/interactive_main.py` and
`src/cli/scale_encode_command.py`.

Components embedded:
* `FFmpegMonitor.parse_ffmpeg_line` (interactive_main.py lines 126-175),
  including faithful models of the Python `re.search` patterns it uses;
* `KeyboardListener` (lines 23-93): key handling, `stop_listening`,
  and the termios save/restore structure of `_listen_unix`;
* `ProgressTracker` (lines 196-236);
* the outcome classification and cancellation branch of
  `InteractiveCLI._download_with_interrupt_support` (lines 486-568);
* the listener/display start-stop discipline of
  `InteractiveCLI.download_video_interactive` (lines 445-483) and
  `ScaleEncodeCommand._execute_encoding` (scale_encode_command.py 471-505),
  as event traces.
-/

namespace VideoLib

/-! ## Character classes of the Python regular expressions (ASCII model) -/

/-- Python regex `\s` on the ASCII range: space, tab, newline, carriage
return, vertical tab, form feed. -/
def pyIsSpace (c : Char) : Bool :=
  c == ' ' || c == '\t' || c == '\n' || c == Char.ofNat 13 ||
  c == Char.ofNat 11 || c == Char.ofNat 12

/-- Python regex `[\d.]`: a decimal digit or a dot. -/
def isDotDigit (c : Char) : Bool :=
  c.isDigit || c == '.'

/-- Python regex `\w` on the ASCII range: letter, digit or underscore. -/
def isWordChar (c : Char) : Bool :=
  c.isAlphanum || c == '_'

/-! ## Small matching combinators

`re.search(pat, line)` scans the line left to right and returns the first
position at which the anchored pattern matches.  Each pattern of the source
is implemented as an anchored matcher (`Option` capture of group 1), and
`reSearch` supplies the scan. -/

/-- Consume an exact literal prefix; `none` when the input does not start
with it. -/
def dropLit : List Char → List Char → Option (List Char)
  | [], cs => some cs
  | _ :: _, [] => none
  | p :: ps, c :: cs => if c == p then dropLit ps cs else none

/-- Greedy run of characters in a class, at least one required
(regex `C+` for a class `C` disjoint from what follows). -/
def run1 (p : Char → Bool) (cs : List Char) : Option (List Char × List Char) :=
  let r := cs.takeWhile p
  if r.isEmpty then none else some (r, cs.drop r.length)

/-- `re.search`: try the anchored matcher at every start position, leftmost
success wins. -/
def reSearch (m : List Char → Option (List Char)) : List Char → Option (List Char)
  | [] => m []
  | c :: cs =>
    match m (c :: cs) with
    | some r => some r
    | none => reSearch m cs

/-- Python `needle in line` substring test. -/
def hasSub (needle : List Char) : List Char → Bool
  | [] => (dropLit needle []).isSome
  | c :: cs => (dropLit needle (c :: cs)).isSome || hasSub needle cs

/-- Index of the last character of the list satisfying `p`, if any. -/
def lastIdx (p : Char → Bool) : List Char → Option Nat
  | [] => none
  | c :: cs =>
    match lastIdx p cs with
    | some i => some (i + 1)
    | none => if p c then some 0 else none

/-! ## The anchored matchers of the source's regexes -/

/-- `fps=\s*(\d+(?:\.\d+)?)`, anchored: literal, optional whitespace,
digits, optional fraction.  Returns group 1. -/
def matchFps (cs : List Char) : Option (List Char) := do
  let cs ← dropLit ("fps=".toList) cs
  let cs := cs.dropWhile pyIsSpace
  let (d1, cs) ← run1 Char.isDigit cs
  match cs with
  | '.' :: cs2 =>
    match run1 Char.isDigit cs2 with
    | some (d2, _) => some (d1 ++ '.' :: d2)
    | none => some d1
  | _ => some d1

/-- `time=(\d+:\d+:\d+\.\d+)`, anchored.  Each `\d+` is a greedy digit run
followed by a separator outside `\d`, so no backtracking arises. -/
def matchTime (cs : List Char) : Option (List Char) := do
  let cs ← dropLit ("time=".toList) cs
  let (h, cs) ← run1 Char.isDigit cs
  let cs ← dropLit [':'] cs
  let (m, cs) ← run1 Char.isDigit cs
  let cs ← dropLit [':'] cs
  let (s, cs) ← run1 Char.isDigit cs
  let cs ← dropLit ['.'] cs
  let (f, _) ← run1 Char.isDigit cs
  some (h ++ ':' :: m ++ ':' :: s ++ '.' :: f)

/-- The group `([\d.]+\w+)` with Python's greedy backtracking.  `[\d.]+`
first takes the maximal run `a`; `\w+` must then match at least one word
character, so the split point backs off from `|a|` to the largest `k ≥ 1`
whose following character is a word character (digits are both `[\d.]`
and `\w`, dots are only `[\d.]`). -/
def numUnit (cs : List Char) : Option (List Char) :=
  match run1 isDotDigit cs with
  | none => none
  | some (a, rest) =>
    match rest with
    | c :: _ =>
      if isWordChar c then
        some (a ++ rest.takeWhile isWordChar)
      else
        match lastIdx Char.isDigit a with
        | some j =>
          if 1 ≤ j then some (a.take j ++ ((a.drop j ++ rest).takeWhile isWordChar))
          else none
        | none => none
    | [] =>
      match lastIdx Char.isDigit a with
      | some j =>
        if 1 ≤ j then some (a.take j ++ (a.drop j).takeWhile isWordChar)
        else none
      | none => none

/-- `bitrate=\s*([\d.]+\w+)`, anchored. -/
def matchBitrate (cs : List Char) : Option (List Char) := do
  let cs ← dropLit ("bitrate=".toList) cs
  numUnit (cs.dropWhile pyIsSpace)

/-- `size=\s*([\d.]+\w+)`, anchored. -/
def matchSize (cs : List Char) : Option (List Char) := do
  let cs ← dropLit ("size=".toList) cs
  numUnit (cs.dropWhile pyIsSpace)

/-- `speed=\s*([\d.]+x)`, anchored: the literal `x` is not in `[\d.]`, so
the digit-dot run is maximal and must be followed directly by `x`. -/
def matchSpeed (cs : List Char) : Option (List Char) := do
  let cs ← dropLit ("speed=".toList) cs
  let cs := cs.dropWhile pyIsSpace
  let (a, rest) ← run1 isDotDigit cs
  match rest with
  | 'x' :: _ => some (a ++ ['x'])
  | _ => none

/-- `drop=(\d+)`, anchored. -/
def matchDrop (cs : List Char) : Option (List Char) := do
  let cs ← dropLit ("drop=".toList) cs
  let (d, _) ← run1 Char.isDigit cs
  some d

/-- `dup=(\d+)`, anchored. -/
def matchDup (cs : List Char) : Option (List Char) := do
  let cs ← dropLit ("dup=".toList) cs
  let (d, _) ← run1 Char.isDigit cs
  some d

/-! ## FFmpegMonitor statistics (interactive_main.py lines 99-107, 126-175) -/

/-- The `self.stats` dictionary of `FFmpegMonitor`. -/
structure Stats where
  bitrate : List Char
  speed : List Char
  size : List Char
  time : List Char
  fps : List Char
  drop : List Char
  dup : List Char
  deriving DecidableEq, Repr

/-- The initial statistics of `FFmpegMonitor.__init__`. -/
def initStats : Stats :=
  { bitrate := "0kbits/s".toList
    speed := "0x".toList
    size := "0kB".toList
    time := "00:00:00".toList
    fps := "0".toList
    drop := "0".toList
    dup := "0".toList }

/-- Lines 132-136: `if 'fps=' in line: m = re.search(...); if m: stats['fps'] = m.group(1)`. -/
def fpsField (old : List Char) (line : List Char) : List Char :=
  if hasSub ("fps=".toList) line then
    match reSearch matchFps line with
    | some v => v
    | none => old
  else old

/-- Lines 138-142: the time token; `group(1)[:8]` truncates milliseconds. -/
def timeField (old : List Char) (line : List Char) : List Char :=
  if hasSub ("time=".toList) line then
    match reSearch matchTime line with
    | some v => v.take 8
    | none => old
  else old

/-- Lines 144-148: the bitrate token. -/
def bitrateField (old : List Char) (line : List Char) : List Char :=
  if hasSub ("bitrate=".toList) line then
    match reSearch matchBitrate line with
    | some v => v
    | none => old
  else old

/-- Lines 150-154: the speed token. -/
def speedField (old : List Char) (line : List Char) : List Char :=
  if hasSub ("speed=".toList) line then
    match reSearch matchSpeed line with
    | some v => v
    | none => old
  else old

/-- Lines 156-160: the size token. -/
def sizeField (old : List Char) (line : List Char) : List Char :=
  if hasSub ("size=".toList) line then
    match reSearch matchSize line with
    | some v => v
    | none => old
  else old

/-- Lines 162-166: the drop token. -/
def dropField (old : List Char) (line : List Char) : List Char :=
  if hasSub ("drop=".toList) line then
    match reSearch matchDrop line with
    | some v => v
    | none => old
  else old

/-- Lines 168-171: the dup token. -/
def dupField (old : List Char) (line : List Char) : List Char :=
  if hasSub ("dup=".toList) line then
    match reSearch matchDup line with
    | some v => v
    | none => old
  else old

/-- `FFmpegMonitor.parse_ffmpeg_line` (lines 126-175).  A falsy line
(`if not line: return`) leaves the stats untouched; otherwise the seven
independent token branches run in source order, each reading only the line
and writing only its own field.  The surrounding `try/except` can never
fire in this model because every branch is a total function, matching the
source where the guarded operations on a `str` cannot raise either. -/
def parse_ffmpeg_line (st : Stats) (line : List Char) : Stats :=
  if line.isEmpty then st
  else
    let st1 := { st with fps := fpsField st.fps line }
    let st2 := { st1 with time := timeField st1.time line }
    let st3 := { st2 with bitrate := bitrateField st2.bitrate line }
    let st4 := { st3 with speed := speedField st3.speed line }
    let st5 := { st4 with size := sizeField st4.size line }
    let st6 := { st5 with drop := dropField st5.drop line }
    { st6 with dup := dupField st6.dup line }

/-! ## KeyboardListener (interactive_main.py lines 23-93) -/

/-- The mutable state of `KeyboardListener`; `listener_thread` is `some ()`
exactly when a background thread object exists (it is `None` in
`__init__`, set by `start_listening`). -/
structure KeyboardListener where
  should_quit : Bool
  listening : Bool
  listener_thread : Option Unit
  deriving DecidableEq, Repr

/-- `KeyboardListener.__init__` (lines 26-29). -/
def initListener : KeyboardListener :=
  { should_quit := false, listening := false, listener_thread := none }

/-- `start_listening` (lines 31-43): reset the flag, set `listening`, and
create/start the platform thread. -/
def start_listening (k : KeyboardListener) : KeyboardListener :=
  { k with should_quit := false, listening := true, listener_thread := some () }

/-- `stop_listening` (lines 45-49): clear `listening`; join the thread only
if one exists, with `timeout=0.5` seconds.  The second component is the
join timeout actually used, in milliseconds (`none` when no join happens,
i.e. `start_listening` was never called). -/
def stop_listening (k : KeyboardListener) : KeyboardListener × Option Nat :=
  let k' := { k with listening := false }
  match k.listener_thread with
  | none => (k', none)
  | some _ => (k', some 500)

/-- Python `str.lower()` on the ASCII range: lowercase every character. -/
def pyLower (s : String) : String :=
  String.mk (s.data.map Char.toLower)

/-- One observed keystroke on the Windows path (lines 56-60): the byte read
by `msvcrt.getch()` decoded with `errors='ignore'` (so possibly the empty
string), lowercased, compared to `'q'`. -/
def processKeyWindows (k : KeyboardListener) (key : String) : KeyboardListener :=
  if pyLower key == "q" then { k with should_quit := true } else k

/-- One observed keystroke on the Unix path (lines 81-85): the character
from `sys.stdin.read(1)`, lowercased, compared to `'q'`. -/
def processKeyUnix (k : KeyboardListener) (key : String) : KeyboardListener :=
  if pyLower key == "q" then { k with should_quit := true } else k

/-- Terminal input mode: `cooked n` stands for a concrete termios settings
record (`n` identifies it); `raw` is the mode entered by `tty.setraw`. -/
inductive TermMode
  | cooked (settings : Nat)
  | raw
  deriving DecidableEq, Repr

/-- `_listen_unix` (lines 66-93), modelling the terminal-mode discipline.
When termios/select are unavailable the outer `except (ImportError,
OSError)` swallows the failure and the mode is never touched.  Otherwise
the original settings are saved (`tcgetattr`), raw mode is entered
(`tty.setraw`), the monitoring loop runs — `loopRaises` says whether it
raised an internal error — and the `finally` block restores the saved
settings (`tcsetattr`) on both exits.  Returns the final terminal mode and
whether an exception escaped past the restore. -/
def listen_unix (termiosAvailable : Bool) (mode : TermMode) (loopRaises : Bool) :
    TermMode × Bool :=
  if termiosAvailable then
    let saved := mode
    let bodyRaised := loopRaises
    (saved, bodyRaised)
  else
    (mode, false)

/-! ## ProgressTracker (interactive_main.py lines 196-236) -/

/-- The state of `ProgressTracker` relevant to progress bookkeeping. -/
structure ProgressTracker where
  running : Bool
  progress : Int
  message : String
  deriving DecidableEq, Repr

/-- `ProgressTracker.__init__` (lines 199-204). -/
def initTracker : ProgressTracker :=
  { running := false, progress := 0, message := "" }

/-- `ProgressTracker.start` (lines 206-212): store the message, set
`running`, reset progress to 0 (thread creation is outside this model). -/
def ProgressTracker.start (t : ProgressTracker) (msg : String) : ProgressTracker :=
  { t with message := msg, running := true, progress := 0 }

/-- `ProgressTracker.update` (lines 214-218): clamp with
`min(100, max(0, progress))`; the message argument defaults to `None` and
is only stored when truthy (a non-empty string). -/
def ProgressTracker.update (t : ProgressTracker) (p : Int) (msg : Option String) :
    ProgressTracker :=
  { t with
    progress := min 100 (max 0 p)
    message :=
      match msg with
      | some m => if m.isEmpty then t.message else m
      | none => t.message }

/-- A call against the tracker: `start(message)` or `update(progress, message)`. -/
inductive TrackerOp
  | start (msg : String)
  | update (p : Int) (msg : Option String)

/-- Apply one tracker call. -/
def applyOp (t : ProgressTracker) : TrackerOp → ProgressTracker
  | TrackerOp.start m => t.start m
  | TrackerOp.update p m => t.update p m

/-- Run a sequence of tracker calls from a starting state. -/
def runOps (t : ProgressTracker) (ops : List TrackerOp) : ProgressTracker :=
  ops.foldl applyOp t

/-! ## Outcome classification of `_download_with_interrupt_support`
(interactive_main.py lines 535-559) -/

/-- The outcome returned to the workflow.  The Python function returns
`None` when `should_quit` is set — the caller (line 461) reads that as the
cancelled outcome before ever looking at a result object — and otherwise a
fabricated result object with `success`/`output_file`/`file_size`/
`error_message` attributes; `completed` and `failed` are those two shapes. -/
inductive Outcome
  | cancelled
  | completed (output_file : String) (file_size : Nat)
  | failed (output_file : String) (error_message : String)
  deriving DecidableEq, Repr

/-- The file-system facts the classification consults: `os.path.exists`
and `os.path.getsize`. -/
structure FileSystem where
  pathExists : String → Bool
  getSize : String → Nat

/-- Python `str(return_code)` for the `process.poll()` value interpolated
into the failure message. -/
def pyReprCode : Option Int → String
  | none => "None"
  | some n => toString n

/-- Lines 535-559: after the monitor loop, `return_code = process.poll()`;
the `should_quit` check comes first (line 541) and returns the cancelled
outcome; otherwise `return_code == 0 and os.path.exists(output_filename)`
yields the success result carrying `os.path.getsize(output_filename)`,
and anything else the failure result with the exit code in the message. -/
def classify (should_quit : Bool) (return_code : Option Int) (fs : FileSystem)
    (output_filename : String) : Outcome :=
  if should_quit then Outcome.cancelled
  else if return_code == some 0 && fs.pathExists output_filename then
    Outcome.completed output_filename (fs.getSize output_filename)
  else
    Outcome.failed output_filename
      ("FFmpeg process failed with code " ++ pyReprCode return_code)

/-! ## The cancellation branch of the monitor loop (lines 514-524) -/

/-- An action issued against the child process. -/
inductive ProcAction
  | terminate
  | waitUpTo (seconds : Nat)
  | kill
  deriving DecidableEq, Repr

/-- Child behaviour under a graceful terminate: `some d` means it exits
`d` seconds after `terminate`; `none` means it ignores the request. -/
def aliveAfterGrace : Option Nat → Bool
  | some d => decide (5 < d)
  | none => true

/-- Lines 516-524: on observing `should_quit` the runner calls
`process.terminate()`, then `process.wait(timeout=5)`; only if that raises
`TimeoutExpired` (the child is still alive after the 5-second grace
period) does it call `process.kill()`; then `break` leaves the loop. -/
def cancelActions (exitDelay : Option Nat) : List ProcAction :=
  [ProcAction.terminate, ProcAction.waitUpTo 5] ++
    (match exitDelay with
     | some d => if d ≤ 5 then [] else [ProcAction.kill]
     | none => [ProcAction.kill])

/-- Seconds the runner spends blocked in the cancellation branch: the wait
returns as soon as the child exits, and after the 5-second grace period a
kill is immediate. -/
def cancelDuration (exitDelay : Option Nat) : Nat :=
  match exitDelay with
  | some d => min d 5
  | none => 5

/-! ## Timing of the monitor loop reads (lines 514-532)

Each iteration checks `should_quit` once and then calls
`process.stdout.readline()`, a blocking read with no timeout: it returns
only when the child's next output line arrives (or at end of stream).
Times are in milliseconds.  `checkTimes t arrivals` is the sequence of
instants at which the cancellation flag is checked, for a loop entered at
time `t` whose remaining lines arrive at the given instants: a line that
already arrived (`a ≤ t`) is buffered and read immediately, otherwise the
read blocks until `a`; when no lines remain the final check is followed by
the end-of-stream read and the loop breaks. -/
def checkTimes : Nat → List Nat → List Nat
  | t, [] => [t]
  | t, a :: rest => t :: checkTimes (max t a) rest

/-- Largest gap between consecutive instants of a list. -/
def maxGap : List Nat → Nat
  | [] => 0
  | [_] => 0
  | a :: b :: rest => max (b - a) (maxGap (b :: rest))

/-! ## Listener/display lifecycle traces (interactive_main.py lines
445-483 and 486-568, scale_encode_command.py lines 471-505) -/

/-- Start/stop events on the supervised resources. -/
inductive Ev
  | startListen
  | stopListen
  | startDisplay
  | stopDisplay
  | startProgress
  | stopProgress
  deriving DecidableEq, Repr

/-- Behaviour of the wrapped long-running call: normal return, a
`KeyboardInterrupt`, or an ordinary `Exception`. -/
inductive CallBehavior
  | ok
  | raisesKeyboardInterrupt
  | raisesException
  deriving DecidableEq, Repr

/-- Events of `_download_with_interrupt_support` (lines 486-568), with
whether a `KeyboardInterrupt` escapes it.  It starts the FFmpeg display
(line 489); on the normal path it stops it after the loop (line 538); an
ordinary `Exception` is caught at line 561, which also stops the display;
a `KeyboardInterrupt` is not an `Exception` subclass, so it escapes with
the display still running. -/
def downloadInnerTrace : CallBehavior → List Ev × Bool
  | CallBehavior.ok => ([Ev.startDisplay, Ev.stopDisplay], false)
  | CallBehavior.raisesException => ([Ev.startDisplay, Ev.stopDisplay], false)
  | CallBehavior.raisesKeyboardInterrupt => ([Ev.startDisplay], true)

/-- Events of `download_video_interactive` around the download (lines
445-483): `start_listening` (line 447), then the inner call; whether it
returns, raises `KeyboardInterrupt` (caught at line 452, followed by
`return`), or completes after an internal exception, the inner `finally`
(lines 455-458) stops the listener and the display, and the method-level
`finally` (lines 479-482) stops both again on the way out. -/
def downloadTrace (b : CallBehavior) : List Ev :=
  Ev.startListen :: (downloadInnerTrace b).1 ++
    [Ev.stopListen, Ev.stopDisplay] ++
    [Ev.stopListen, Ev.stopDisplay]

/-- Events of `ScaleEncodeCommand._execute_encoding` (scale_encode_command.py
lines 471-505): `start_listening` (line 484) and `progress_tracker.start`
(line 486), then the blocking `scale_and_encode` call inside `try`; the
`finally` (lines 499-505) stops the tracker and the listener on every exit
path, normal return and exception alike. -/
def encodeTrace (_ : CallBehavior) : List Ev :=
  [Ev.startListen, Ev.startProgress, Ev.stopProgress, Ev.stopListen]

/-- Every occurrence of the start event is followed, later in the trace,
by an occurrence of the stop event. -/
def matched (s e : Ev) : List Ev → Bool
  | [] => true
  | x :: rest => (!(x == s) || rest.contains e) && matched s e rest

/-- A file system on which the expected output file exists but is empty. -/
def fsEmptyFile : FileSystem :=
  { pathExists := fun _ => true, getSize := fun _ => 0 }

/-- The exact status line of the C7 scenario. -/
def downloadStatLine : List Char :=
  "frame=120 fps=30 time=00:00:04.00 bitrate=1000kbits/s speed=2.0x".toList

/-! ## Supporting lemmas -/

/-- `parse_ffmpeg_line` on a non-empty line is the per-field token update. -/
theorem parse_cons (st : Stats) (c : Char) (cs : List Char) :
    parse_ffmpeg_line st (c :: cs) =
      { bitrate := bitrateField st.bitrate (c :: cs)
        speed := speedField st.speed (c :: cs)
        size := sizeField st.size (c :: cs)
        time := timeField st.time (c :: cs)
        fps := fpsField st.fps (c :: cs)
        drop := dropField st.drop (c :: cs)
        dup := dupField st.dup (c :: cs) } := rfl

theorem fpsField_unchanged (old line : List Char)
    (h : hasSub ("fps=".toList) line = false ∨ reSearch matchFps line = none) :
    fpsField old line = old := by
  unfold fpsField
  rcases h with h | h <;> rw [h] <;> simp

theorem timeField_unchanged (old line : List Char)
    (h : hasSub ("time=".toList) line = false ∨ reSearch matchTime line = none) :
    timeField old line = old := by
  unfold timeField
  rcases h with h | h <;> rw [h] <;> simp

theorem bitrateField_unchanged (old line : List Char)
    (h : hasSub ("bitrate=".toList) line = false ∨ reSearch matchBitrate line = none) :
    bitrateField old line = old := by
  unfold bitrateField
  rcases h with h | h <;> rw [h] <;> simp

theorem speedField_unchanged (old line : List Char)
    (h : hasSub ("speed=".toList) line = false ∨ reSearch matchSpeed line = none) :
    speedField old line = old := by
  unfold speedField
  rcases h with h | h <;> rw [h] <;> simp

theorem sizeField_unchanged (old line : List Char)
    (h : hasSub ("size=".toList) line = false ∨ reSearch matchSize line = none) :
    sizeField old line = old := by
  unfold sizeField
  rcases h with h | h <;> rw [h] <;> simp

theorem dropField_unchanged (old line : List Char)
    (h : hasSub ("drop=".toList) line = false ∨ reSearch matchDrop line = none) :
    dropField old line = old := by
  unfold dropField
  rcases h with h | h <;> rw [h] <;> simp

theorem dupField_unchanged (old line : List Char)
    (h : hasSub ("dup=".toList) line = false ∨ reSearch matchDup line = none) :
    dupField old line = old := by
  unfold dupField
  rcases h with h | h <;> rw [h] <;> simp

/-- Progress stays in `[0, 100]` along any run of tracker calls. -/
theorem runOps_progress_bounds (ops : List TrackerOp) (t : ProgressTracker)
    (h0 : 0 ≤ t.progress) (h1 : t.progress ≤ 100) :
    0 ≤ (runOps t ops).progress ∧ (runOps t ops).progress ≤ 100 := by
  induction ops generalizing t with
  | nil => exact ⟨h0, h1⟩
  | cons op rest ih =>
    have hstep : runOps t (op :: rest) = runOps (applyOp t op) rest := rfl
    rw [hstep]
    cases op with
    | start m =>
      exact ih _ (by simp [applyOp, ProgressTracker.start]) (by simp [applyOp, ProgressTracker.start])
    | update p m =>
      refine ih _ ?_ ?_
      · simp only [applyOp, ProgressTracker.update]
        omega
      · simp only [applyOp, ProgressTracker.update]
        omega

/-! ## The claims -/

/-- C1: for every supervised operation and every exit path (normal return,
user cancellation via `KeyboardInterrupt`, and exception), each start of
the keyboard listener and of the progress/statistics display in the trace
is followed by a corresponding stop before the workflow returns: the
`finally` blocks of `download_video_interactive` and `_execute_encoding`
run the stops on all three call behaviours. -/
theorem C1_start_stop_matched (b : CallBehavior) :
    matched Ev.startListen Ev.stopListen (downloadTrace b) = true ∧
    matched Ev.startDisplay Ev.stopDisplay (downloadTrace b) = true ∧
    matched Ev.startListen Ev.stopListen (encodeTrace b) = true ∧
    matched Ev.startProgress Ev.stopProgress (encodeTrace b) = true := by
  cases b <;> exact ⟨rfl, rfl, rfl, rfl⟩

/-- C2: when the cancellation flag is true at the end of a subprocess run,
the reported outcome is `cancelled`, for every exit code and every state
of the output file — the `should_quit` check at line 541 precedes the
exit-code/output-file classification. -/
theorem C2_cancellation_priority (rc : Option Int) (fs : FileSystem) (out : String) :
    classify true rc fs out = Outcome.cancelled := rfl

/-- C3 counterexample: with no cancellation, exit code 0 and an output
file that exists but is empty (size 0), the code returns `completed` with
size 0; the claim demands `failed` whenever the file is not non-empty, so
the claim as stated is false on this input. -/
theorem C3_cex :
    classify false (some 0) fsEmptyFile "out.mp4" = Outcome.completed "out.mp4" 0 ∧
    fsEmptyFile.getSize "out.mp4" = 0 := by
  exact ⟨rfl, rfl⟩

/-- C3 (amended): with the cancellation flag false, the outcome is
`completed` carrying `os.path.getsize` of the output file exactly when the
exit code is 0 and the output file exists — no non-emptiness condition —
and in every other case it is `failed` with the exit code embedded in the
diagnostic message. -/
theorem C3_completed_iff_exit0_and_exists (rc : Option Int) (fs : FileSystem) (out : String) :
    (classify false rc fs out = Outcome.completed out (fs.getSize out) ↔
      (rc = some 0 ∧ fs.pathExists out = true)) ∧
    ((rc ≠ some 0 ∨ fs.pathExists out = false) →
      classify false rc fs out =
        Outcome.failed out ("FFmpeg process failed with code " ++ pyReprCode rc)) := by
  have hsplit : (rc == some 0 && fs.pathExists out) = true ↔
      (rc = some 0 ∧ fs.pathExists out = true) := by
    rw [Bool.and_eq_true]
    constructor
    · rintro ⟨h1, h2⟩
      exact ⟨by simpa using h1, h2⟩
    · rintro ⟨h1, h2⟩
      exact ⟨by simp [h1], h2⟩
  by_cases h0 : (rc == some 0 && fs.pathExists out) = true
  · have hrc := hsplit.mp h0
    constructor
    · constructor
      · intro _
        exact hrc
      · intro _
        simp [classify, h0]
    · intro hbad
      exfalso
      rcases hbad with hb | hb
      · exact hb hrc.1
      · rw [hrc.2] at hb
        cases hb
  · rw [Bool.not_eq_true] at h0
    have hne : ¬ (rc = some 0 ∧ fs.pathExists out = true) := by
      intro hc
      have := hsplit.mpr hc
      rw [h0] at this
      cases this
    constructor
    · constructor
      · intro hcomp
        have hfail : classify false rc fs out =
            Outcome.failed out ("FFmpeg process failed with code " ++ pyReprCode rc) := by
          simp [classify, h0]
        rw [hfail] at hcomp
        cases hcomp
      · intro hc
        exact absurd hc hne
    · intro _
      simp [classify, h0]

/-- C3 witness: exit code 2 with an existing output file gives the failure
result with the exit code in the message. -/
theorem C3_amended_witness :
    classify false (some 2) fsEmptyFile "out.mp4" =
      Outcome.failed "out.mp4" ("FFmpeg process failed with code " ++ pyReprCode (some 2)) :=
  (C3_completed_iff_exit0_and_exists (some 2) fsEmptyFile "out.mp4").2 (Or.inl (by decide))

/-- C4: on cancellation the runner first issues a graceful terminate, then
waits at most 5 seconds; it kills the child exactly when the child is
still alive after the grace period (in particular when it ignores the
terminate entirely); the branch spends at most 5 seconds before the loop
breaks, and the run is reported as cancelled. -/
theorem C4_graceful_then_forced (d : Option Nat) (rc : Option Int) (fs : FileSystem) (out : String) :
    (cancelActions d).head? = some ProcAction.terminate ∧
    ProcAction.waitUpTo 5 ∈ cancelActions d ∧
    (ProcAction.kill ∈ cancelActions d ↔ aliveAfterGrace d = true) ∧
    cancelDuration d ≤ 5 ∧
    classify true rc fs out = Outcome.cancelled := by
  refine ⟨rfl, ?_, ?_, ?_, rfl⟩
  · cases d with
    | none => simp [cancelActions]
    | some k =>
      by_cases h : k ≤ 5 <;> simp [cancelActions, h]
  · cases d with
    | none => simp [cancelActions, aliveAfterGrace]
    | some k =>
      by_cases h : k ≤ 5
      · simp [cancelActions, aliveAfterGrace, h]
      · simp [cancelActions, aliveAfterGrace, h]
        omega
  · cases d with
    | none => simp [cancelDuration]
    | some k =>
      simp [cancelDuration]

/-- C5 counterexample: a child that is silent for 10 seconds (one line
arriving at 10000 ms) gives consecutive cancellation checks 10000 ms
apart — the gap is not sub-second, refuting the bounded-read claim: the
read at line 527 is a blocking `readline()` with no timeout. -/
theorem C5_cex :
    maxGap (checkTimes 0 [10000]) = 10000 ∧ ¬ maxGap (checkTimes 0 [10000]) ≤ 1000 := by
  decide

/-- C5 (amended): the output read is a blocking line read with no timeout,
and the cancellation flag is checked once per loop iteration before the
read, so the time between consecutive checks equals the full wait for the
next output line — unbounded when the child stays silent. -/
theorem C5_blocking_read_gap (a : Nat) :
    checkTimes 0 [a] = [0, a] ∧ maxGap (checkTimes 0 [a]) = a := by
  constructor
  · simp [checkTimes]
  · simp [checkTimes, maxGap]

/-- C6: `parse_ffmpeg_line` is a total function (it never raises), and
each statistics field changes only when the line contains its recognized
token with a well-formed value: a field whose token is absent or whose
value does not match the token's pattern keeps its prior value, and a line
containing none of the seven tokens (the empty line included) leaves the
whole snapshot unchanged. -/
theorem C6_parse_frame_effect (st : Stats) (line : List Char) :
    ((hasSub ("fps=".toList) line = false ∨ reSearch matchFps line = none) →
        (parse_ffmpeg_line st line).fps = st.fps) ∧
    ((hasSub ("time=".toList) line = false ∨ reSearch matchTime line = none) →
        (parse_ffmpeg_line st line).time = st.time) ∧
    ((hasSub ("bitrate=".toList) line = false ∨ reSearch matchBitrate line = none) →
        (parse_ffmpeg_line st line).bitrate = st.bitrate) ∧
    ((hasSub ("speed=".toList) line = false ∨ reSearch matchSpeed line = none) →
        (parse_ffmpeg_line st line).speed = st.speed) ∧
    ((hasSub ("size=".toList) line = false ∨ reSearch matchSize line = none) →
        (parse_ffmpeg_line st line).size = st.size) ∧
    ((hasSub ("drop=".toList) line = false ∨ reSearch matchDrop line = none) →
        (parse_ffmpeg_line st line).drop = st.drop) ∧
    ((hasSub ("dup=".toList) line = false ∨ reSearch matchDup line = none) →
        (parse_ffmpeg_line st line).dup = st.dup) ∧
    ((hasSub ("fps=".toList) line = false ∧ hasSub ("time=".toList) line = false ∧
      hasSub ("bitrate=".toList) line = false ∧ hasSub ("speed=".toList) line = false ∧
      hasSub ("size=".toList) line = false ∧ hasSub ("drop=".toList) line = false ∧
      hasSub ("dup=".toList) line = false) →
        parse_ffmpeg_line st line = st) := by
  cases line with
  | nil =>
    exact ⟨fun _ => rfl, fun _ => rfl, fun _ => rfl, fun _ => rfl, fun _ => rfl,
      fun _ => rfl, fun _ => rfl, fun _ => rfl⟩
  | cons c cs =>
    rw [parse_cons]
    refine ⟨?_, ?_, ?_, ?_, ?_, ?_, ?_, ?_⟩
    · intro h
      exact fpsField_unchanged st.fps (c :: cs) h
    · intro h
      exact timeField_unchanged st.time (c :: cs) h
    · intro h
      exact bitrateField_unchanged st.bitrate (c :: cs) h
    · intro h
      exact speedField_unchanged st.speed (c :: cs) h
    · intro h
      exact sizeField_unchanged st.size (c :: cs) h
    · intro h
      exact dropField_unchanged st.drop (c :: cs) h
    · intro h
      exact dupField_unchanged st.dup (c :: cs) h
    · rintro ⟨h1, h2, h3, h4, h5, h6, h7⟩
      have e1 := fpsField_unchanged st.fps (c :: cs) (Or.inl h1)
      have e2 := timeField_unchanged st.time (c :: cs) (Or.inl h2)
      have e3 := bitrateField_unchanged st.bitrate (c :: cs) (Or.inl h3)
      have e4 := speedField_unchanged st.speed (c :: cs) (Or.inl h4)
      have e5 := sizeField_unchanged st.size (c :: cs) (Or.inl h5)
      have e6 := dropField_unchanged st.drop (c :: cs) (Or.inl h6)
      have e7 := dupField_unchanged st.dup (c :: cs) (Or.inl h7)
      cases st
      simp_all

/-- C6 witness: a tokenless line leaves the initial snapshot unchanged. -/
theorem C6_witness :
    parse_ffmpeg_line initStats ("hello world".toList) = initStats :=
  (C6_parse_frame_effect initStats ("hello world".toList)).2.2.2.2.2.2.2 (by decide)

/-- C7 counterexample: on the exact scenario line, the bitrate field is
set to "1000kbits", not "1000kbits/s" — the regex `bitrate=\s*([\d.]+\w+)`
cannot match the slash, so the captured unit stops before "/s"; the claim
as stated is false. -/
theorem C7_cex :
    (parse_ffmpeg_line initStats downloadStatLine).bitrate = "1000kbits".toList ∧
    (parse_ffmpeg_line initStats downloadStatLine).bitrate ≠ "1000kbits/s".toList := by
  decide

/-- C7 (amended): feeding the scenario line sets fps to "30", time to
"00:00:04", bitrate to "1000kbits" (the regex stops at the slash) and
speed to "2.0x", while size, drop and dup retain their prior values. -/
theorem C7_scenario_line (st : Stats) :
    parse_ffmpeg_line st downloadStatLine =
      { st with fps := "30".toList, time := "00:00:04".toList,
                bitrate := "1000kbits".toList, speed := "2.0x".toList } := by
  cases st
  rfl

/-- C8: `stop_listening` is a total function that is safe when no listener
thread was ever started (it performs no join at all then), any join it
performs is bounded by the 0.5-second timeout, and `_listen_unix` restores
the saved terminal mode on every exit, also when the monitoring loop
raised an internal error. -/
theorem C8_stop_listening_safe (k : KeyboardListener) (avail : Bool) (mode : TermMode)
    (raises : Bool) :
    ((stop_listening k).1.listening = false) ∧
    (k.listener_thread = none → (stop_listening k).2 = none) ∧
    ((stop_listening k).2 = none ∨ (stop_listening k).2 = some 500) ∧
    ((stop_listening initListener).2 = none) ∧
    ((listen_unix avail mode raises).1 = mode) := by
  obtain ⟨q, l, th⟩ := k
  refine ⟨?_, ?_, ?_, rfl, ?_⟩
  · cases th <;> rfl
  · intro h
    cases th with
    | none => rfl
    | some u => cases h
  · cases th with
    | none => exact Or.inl rfl
    | some u => exact Or.inr rfl
  · cases avail
    · rfl
    · rfl

/-- C8 witness: stopping a never-started listener performs no join, and a
raw-mode session whose loop raised still ends in the saved mode. -/
theorem C8_witness :
    (stop_listening initListener).2 = none ∧
    (listen_unix true (TermMode.cooked 3) true).1 = TermMode.cooked 3 :=
  ⟨(C8_stop_listening_safe initListener true (TermMode.cooked 3) true).2.1 rfl,
   (C8_stop_listening_safe initListener true (TermMode.cooked 3) true).2.2.2.2⟩

/-- C9: on both listener paths the observed key is lowercased before the
comparison with 'q': the flag after a keystroke is the old flag or-ed with
the test `lowercased key = "q"`, so an uppercase 'Q' triggers cancellation
and any other key leaves the state unchanged. -/
theorem C9_case_insensitive_q (k : KeyboardListener) (key : String) :
    ((processKeyWindows k key).should_quit = (k.should_quit || (pyLower key == "q"))) ∧
    ((processKeyUnix k key).should_quit = (k.should_quit || (pyLower key == "q"))) ∧
    (pyLower key ≠ "q" → processKeyWindows k key = k ∧ processKeyUnix k key = k) := by
  refine ⟨?_, ?_, ?_⟩
  · unfold processKeyWindows
    by_cases h : pyLower key = "q" <;> simp [h]
  · unfold processKeyUnix
    by_cases h : pyLower key = "q" <;> simp [h]
  · intro h
    constructor <;> simp [processKeyWindows, processKeyUnix, h]

/-- C9 witness: an uppercase 'Q' sets the flag; an 'x' changes nothing. -/
theorem C9_witness :
    processKeyWindows initListener "x" = initListener ∧
    (processKeyWindows initListener "Q").should_quit =
      (initListener.should_quit || (pyLower "Q" == "q")) :=
  ⟨((C9_case_insensitive_q initListener "x").2.2 (by decide)).1,
   (C9_case_insensitive_q initListener "Q").1⟩

/-- C10: `start` resets progress to 0, `update p` stores
`min 100 (max 0 p)`, and along any sequence of start/update calls from the
initial tracker the progress stays within `[0, 100]`. -/
theorem C10_progress_clamped (t : ProgressTracker) (msg : String) (p : Int)
    (m : Option String) (ops : List TrackerOp) :
    ((t.start msg).progress = 0) ∧
    ((t.update p m).progress = min 100 (max 0 p)) ∧
    (0 ≤ (runOps initTracker ops).progress ∧ (runOps initTracker ops).progress ≤ 100) := by
  refine ⟨rfl, rfl, ?_⟩
  exact runOps_progress_bounds ops initTracker (by decide) (by decide)

end VideoLib
